import Mathlib

/-!
Shallow embedding of src/main.py, a precipitation gap-filling and monthly
statistics program.  Station readings are modelled as Option ℚ (absent =
none), Python runtime exceptions as an Except layer, and the month
forward-fill, the normal-ratio imputation, the year-by-month table and the
monthly statistics are translated construct by construct from the source.
-/

namespace Hidro

/-- Python runtime errors the translated code can raise: ZeroDivisionError
from division by zero, TypeError from arithmetic or comparison on None. -/
inductive PyErr where
  | zeroDivision
  | typeError
deriving Repr, DecidableEq

instance {ε α : Type} [DecidableEq ε] [DecidableEq α] : DecidableEq (Except ε α) := fun a b =>
  match a, b with
  | Except.ok x, Except.ok y =>
    if h : x = y then Decidable.isTrue (by rw [h]) else Decidable.isFalse (by simp [h])
  | Except.error e, Except.error f =>
    if h : e = f then Decidable.isTrue (by rw [h]) else Decidable.isFalse (by simp [h])
  | Except.ok _, Except.error _ => Decidable.isFalse (by simp)
  | Except.error _, Except.ok _ => Decidable.isFalse (by simp)

/-- Modelled from the spec: the class classes.data.Data is imported from
classes/data.py, which is not under src/.  Per the spec's Record model it
carries a year, two optional non-negative station readings (absent = none)
and a month label, which ingestion may leave unresolved (none). -/
structure Data where
  year : Int
  station_1 : Option ℚ
  station_2 : Option ℚ
  month : Option String
deriving Repr, DecidableEq

/-- One raw spreadsheet row (columns A:D of resources/data.xlsx, main.py
line 75): year, station_1 reading, station_2 reading and the month cell,
the latter none when the cell is empty (pd.isna, main.py lines 80-81). -/
structure Fila where
  year : Int
  station_1 : Option ℚ
  station_2 : Option ℚ
  month_cell : Option String
deriving Repr, DecidableEq

/-- The station-normals dictionary shape (main.py line 178): one annual
normal per station. -/
structure Normales where
  station_1 : ℚ
  station_2 : ℚ
deriving Repr, DecidableEq

/-- The concrete normals of main.py line 178. -/
def normales : Normales := { station_1 := 1200, station_2 := 800 }

/-- The two station attributes of Data that getattr(d, estacion) can
select (main.py line 292). -/
inductive Estacion where
  | station_1
  | station_2
deriving Repr, DecidableEq

/-- getattr(d, estacion) for the two station attributes. -/
def Data.lectura (d : Data) (est : Estacion) : Option ℚ :=
  match est with
  | Estacion.station_1 => d.station_1
  | Estacion.station_2 => d.station_2

/-- The loop body of crear_data (main.py lines 78-84): the month accumulator
is updated when the row's month cell is non-absent, then a Data record is
appended carrying the current accumulator, which stays none when no month
cell has been seen yet. -/
def crearDataAux (month : Option String) : List Fila → List Data
  | [] => []
  | f :: fs =>
    let m := match f.month_cell with
      | some c => some c
      | none => month
    { year := f.year, station_1 := f.station_1, station_2 := f.station_2, month := m } ::
      crearDataAux m fs

/-- crear_data (main.py lines 53-85): builds the Data list from the raw
rows, forward-filling the month label; the accumulator starts at None. -/
def crear_data (filas : List Fila) : List Data :=
  crearDataAux none filas

/-- The value of crear_data's month accumulator after scanning the rows,
starting from a given accumulator value. -/
def ultimoMesDesde (month : Option String) (filas : List Fila) : Option String :=
  filas.foldl (fun acc f =>
    match f.month_cell with
    | some c => some c
    | none => acc) month

/-- The last non-absent month cell of a row list, none when there is none:
the value of crear_data's month accumulator after scanning the rows. -/
def ultimoMes (filas : List Fila) : Option String :=
  ultimoMesDesde none filas

/-- Python division: raises ZeroDivisionError when the divisor is zero. -/
def pydiv (a b : ℚ) : Except PyErr ℚ :=
  if b = 0 then Except.error PyErr.zeroDivision else Except.ok (a / b)

/-- One loop iteration of completar_porcentaje_normal (main.py lines
121-128).  s1 and s2 capture the readings before any update; the first
conditional fills station_1 from station_2 when s1 is absent and s2
present, the second fills station_2 from the possibly-just-updated
station_1 when s2 is absent.  Each fill divides the two normals, which in
Python raises ZeroDivisionError on a zero divisor; no other validation of
the normals is performed. -/
def completarFila (n : Normales) (row : Data) : Except PyErr Data := do
  let s1 := row.station_1
  let s2 := row.station_2
  let row1 ←
    match s1, s2 with
    | none, some v => do
        let r ← pydiv n.station_1 n.station_2
        Except.ok { row with station_1 := some (r * v) }
    | _, _ => Except.ok row
  match s2, row1.station_1 with
  | none, some v => do
      let r ← pydiv n.station_2 n.station_1
      Except.ok { row1 with station_2 := some (r * v) }
  | _, _ => Except.ok row1

/-- completar_porcentaje_normal (main.py lines 87-129): applies the fill
step to every record in order, keeping the row order, and propagates the
first Python error raised. -/
def completar_porcentaje_normal : List Data → Normales → Except PyErr (List Data)
  | [], _ => Except.ok []
  | row :: rows, n => do
    let out ← completarFila n row
    let outs ← completar_porcentaje_normal rows n
    Except.ok (out :: outs)

/-- orden_meses (main.py lines 168-171): the canonical month labels. -/
def orden_meses : List String :=
  ["ENERO", "FEBRERO", "MARZO", "ABRIL", "MAYO", "JUNIO",
   "JULIO", "AGOSTO", "SEPTIEMBRE", "OCTUBRE", "NOVIEMBRE", "DICIEMBRE"]

/-- estaciones (main.py line 191): the station names offered by the menu. -/
def estaciones : List String := ["station_1", "station_2"]

/-- A cell of the year-by-month table (main.py line 290): vacia is the ""
marker every cell starts from; valor v is a written cell holding one
record's selected-station reading, which may itself be absent (None). -/
inductive Celda where
  | vacia
  | valor (v : Option ℚ)
deriving Repr, DecidableEq

/-- The final content of cell tabla[y][m] after the write loop of main.py
lines 291-292: each record with that year and month overwrites the cell, so
the last such record in row order wins; cells never written stay vacia. -/
def celda (rows : List Data) (est : Estacion) (y : Int) (m : Option String) : Celda :=
  rows.foldl (fun acc d =>
    if d.year = y ∧ d.month = m then Celda.valor (d.lectura est) else acc) Celda.vacia

/-- The distinct years of the record list in first-appearance order: the
keys the defaultdict tabla acquires during the write loop, as iterated by
the comprehension of main.py line 296. -/
def aniosDe (rows : List Data) : List Int :=
  rows.foldl (fun acc d => if d.year ∈ acc then acc else acc ++ [d.year]) []

/-- valores for one month (main.py line 296): the cell contents
tabla[year][mes] over the table's years, keeping exactly the cells that
differ from the "" marker.  A written cell holding an absent reading (None)
differs from "" and is therefore kept. -/
def valoresMes (rows : List Data) (est : Estacion) (mes : String) : List (Option ℚ) :=
  (aniosDe rows).filterMap (fun y =>
    match celda rows est y (some mes) with
    | Celda.vacia => none
    | Celda.valor v => some v)

/-- Evaluates a list of possibly-absent values to actual numbers, as
Python's sum / max / min implicitly do: the first None participating in
arithmetic or comparison raises TypeError. -/
def seqValores : List (Option ℚ) → Except PyErr (List ℚ)
  | [] => Except.ok []
  | some x :: rest => do
    let xs ← seqValores rest
    Except.ok (x :: xs)
  | none :: _ => Except.error PyErr.typeError

/-- Python max over a list, defined on nonempty lists by folding; the empty
case is never reached by the statistics code, which guards on emptiness. -/
def maxLista : List ℚ → ℚ
  | [] => 0
  | x :: xs => xs.foldl max x

/-- Python min over a list, defined on nonempty lists by folding; the empty
case is never reached by the statistics code, which guards on emptiness. -/
def minLista : List ℚ → ℚ
  | [] => 0
  | x :: xs => xs.foldl min x

/-- The four rational statistics the month loop stores (main.py lines
298-304): mean, max, min and population variance.  The standard deviation
and the PMP are the real-valued functions desvStd and pmpDe below. -/
structure EstadisticasMes where
  media : ℚ
  maximo : ℚ
  minimo : ℚ
  varianza : ℚ
deriving Repr, DecidableEq

/-- One iteration of the statistics loop (main.py lines 296-307) on the
collected valores of a month: when valores is empty every statistic is the
sentinel 0; otherwise n = len(valores), media = sum/n, max, min and the
population variance sum((x-media)^2)/n are computed, raising TypeError as
Python does when an absent (None) value participates. -/
def estadisticasMes (valores : List (Option ℚ)) : Except PyErr EstadisticasMes :=
  if valores.isEmpty then
    Except.ok { media := 0, maximo := 0, minimo := 0, varianza := 0 }
  else do
    let xs ← seqValores valores
    let n : ℚ := valores.length
    let media := xs.sum / n
    Except.ok
      { media := media
        maximo := maxLista xs
        minimo := minLista xs
        varianza := ((xs.map fun t => (t - media) ^ 2).sum) / n }

/-- desviaciones[mes] (main.py line 304): math.sqrt of the population
variance. -/
noncomputable def desvStd (s : EstadisticasMes) : ℝ :=
  Real.sqrt (s.varianza : ℝ)

/-- pmp[mes] (main.py line 305): media + 1.5 * desviaciones[mes]. -/
noncomputable def pmpDe (s : EstadisticasMes) : ℝ :=
  (s.media : ℝ) + 1.5 * desvStd s

/-- promedios[mes] as produced by the statistics loop for one month. -/
def promedioMes (rows : List Data) (est : Estacion) (mes : String) : Except PyErr ℚ :=
  (estadisticasMes (valoresMes rows est mes)).map (fun s => s.media)

/-- suma_promedios_anual (main.py line 329): the sum of promedios[mes] over
orden_meses, in the Except layer since each promedio comes from the
statistics pass. -/
def sumaPromediosAnual (rows : List Data) (est : Estacion) : Except PyErr ℚ :=
  orden_meses.foldl
    (fun acc mes => do
      let a ← acc
      let p ← promedioMes rows est mes
      Except.ok (a + p))
    (Except.ok 0)

/-- Python list indexing xs[i] (main.py line 284): a negative index wraps
from the end; an index out of range on either side raises IndexError,
modelled as none. -/
def pyGet (xs : List String) (i : Int) : Option String :=
  if 0 ≤ i then xs.get? i.toNat
  else
    let j := i + xs.length
    if 0 ≤ j then xs.get? j.toNat else none

/-- The station selection of main.py lines 282-287.  The argument models
int(seleccion): none when int() raises ValueError.  The result pairs the
chosen station name with True exactly when the fallback notice is printed:
ValueError and IndexError are caught and fall back to station_1 with the
notice; any index Python accepts, negative wrap included, is used silently. -/
def elegirEstacion (sel : Option Int) : String × Bool :=
  match sel with
  | none => ("station_1", true)
  | some k =>
    match pyGet estaciones (k - 1) with
    | some e => (e, false)
    | none => ("station_1", true)

/-! Helper lemmas about Except and list folds, shared by several claims. -/

theorem okBind {ε α β : Type} (x : α) (f : α → Except ε β) :
    (Except.ok x : Except ε α) >>= f = f x := rfl

theorem errBind {ε α β : Type} (e : ε) (f : α → Except ε β) :
    (Except.error e : Except ε α) >>= f = Except.error e := rfl

theorem okMap {ε α β : Type} (f : α → β) (x : α) :
    Except.map f (Except.ok x : Except ε α) = Except.ok (f x) := rfl

theorem errMap {ε α β : Type} (f : α → β) (e : ε) :
    Except.map f (Except.error e : Except ε α) = Except.error e := rfl

theorem foldl_max_mem (xs : List ℚ) : ∀ x : ℚ, xs.foldl max x ∈ x :: xs := by
  induction xs with
  | nil => intro x; simp
  | cons y ys ih =>
    intro x
    simp only [List.foldl_cons, List.mem_cons]
    have h := ih (max x y)
    simp only [List.mem_cons] at h
    rcases h with h | h
    · rcases max_choice x y with hm | hm
      · exact Or.inl (h.trans hm)
      · exact Or.inr (Or.inl (h.trans hm))
    · exact Or.inr (Or.inr h)

theorem le_foldl_max (xs : List ℚ) : ∀ x : ℚ, ∀ t ∈ x :: xs, t ≤ xs.foldl max x := by
  induction xs with
  | nil =>
    intro x t ht
    simp only [List.mem_cons, List.not_mem_nil, or_false] at ht
    simp [ht]
  | cons y ys ih =>
    intro x t ht
    simp only [List.foldl_cons]
    have hhead : max x y ≤ ys.foldl max (max x y) :=
      ih (max x y) (max x y) (List.mem_cons_self _ _)
    simp only [List.mem_cons] at ht
    rcases ht with rfl | rfl | ht
    · exact le_trans (le_max_left _ _) hhead
    · exact le_trans (le_max_right _ _) hhead
    · exact ih (max x y) t (List.mem_cons_of_mem _ ht)

theorem foldl_min_mem (xs : List ℚ) : ∀ x : ℚ, xs.foldl min x ∈ x :: xs := by
  induction xs with
  | nil => intro x; simp
  | cons y ys ih =>
    intro x
    simp only [List.foldl_cons, List.mem_cons]
    have h := ih (min x y)
    simp only [List.mem_cons] at h
    rcases h with h | h
    · rcases min_choice x y with hm | hm
      · exact Or.inl (h.trans hm)
      · exact Or.inr (Or.inl (h.trans hm))
    · exact Or.inr (Or.inr h)

theorem foldl_min_le (xs : List ℚ) : ∀ x : ℚ, ∀ t ∈ x :: xs, xs.foldl min x ≤ t := by
  induction xs with
  | nil =>
    intro x t ht
    simp only [List.mem_cons, List.not_mem_nil, or_false] at ht
    simp [ht]
  | cons y ys ih =>
    intro x t ht
    simp only [List.foldl_cons]
    have hhead : ys.foldl min (min x y) ≤ min x y :=
      ih (min x y) (min x y) (List.mem_cons_self _ _)
    simp only [List.mem_cons] at ht
    rcases ht with rfl | rfl | ht
    · exact le_trans hhead (min_le_left _ _)
    · exact le_trans hhead (min_le_right _ _)
    · exact ih (min x y) t (List.mem_cons_of_mem _ ht)

theorem seqValores_map_some (xs : List ℚ) : seqValores (xs.map some) = Except.ok xs := by
  induction xs with
  | nil => rfl
  | cons x rest ih => simp [seqValores, ih, okBind]

/-- Claim C1: when exactly one of the two readings is absent and both
normals are positive, the fill step succeeds, keeps the present reading and
the other fields, fills the absent one with the normal-ratio estimate
(normal_target / normal_reference) * reading_reference, and the two
resulting readings satisfy reading_a / normal_a = reading_b / normal_b. -/
theorem C1_porcentaje_normal (n : Normales) (row : Data)
    (hp1 : 0 < n.station_1) (hp2 : 0 < n.station_2)
    (hx : (row.station_1 = none ∧ row.station_2 ≠ none) ∨
          (row.station_1 ≠ none ∧ row.station_2 = none)) :
    ∃ a b, completarFila n row =
        Except.ok { row with station_1 := some a, station_2 := some b } ∧
      (∀ v, row.station_1 = some v → a = v) ∧
      (∀ v, row.station_2 = some v → b = v) ∧
      (row.station_1 = none → ∀ v, row.station_2 = some v →
        a = n.station_1 / n.station_2 * v) ∧
      (row.station_2 = none → ∀ v, row.station_1 = some v →
        b = n.station_2 / n.station_1 * v) ∧
      a / n.station_1 = b / n.station_2 := by
  obtain ⟨y, s1, s2, m⟩ := row
  simp only at hx
  rcases hx with ⟨e1, e2⟩ | ⟨e1, e2⟩
  · subst e1
    obtain ⟨v, rfl⟩ := Option.ne_none_iff_exists'.mp e2
    refine ⟨n.station_1 / n.station_2 * v, v, ?_, ?_, ?_, ?_, ?_, ?_⟩
    · simp [completarFila, pydiv, hp2.ne', okBind]
    · intro w hw; cases hw
    · intro w hw; cases Option.some.inj hw; rfl
    · intro _ w hw; cases Option.some.inj hw; rfl
    · intro h2; cases h2
    · field_simp
      ring
  · subst e2
    obtain ⟨v, rfl⟩ := Option.ne_none_iff_exists'.mp e1
    refine ⟨v, n.station_2 / n.station_1 * v, ?_, ?_, ?_, ?_, ?_, ?_⟩
    · simp [completarFila, pydiv, hp1.ne', okBind]
    · intro w hw; cases Option.some.inj hw; rfl
    · intro w hw; cases hw
    · intro h1; cases h1
    · intro _ w hw; cases Option.some.inj hw; rfl
    · field_simp
      ring

/-- Witness for C1 at the spec's concrete scenario: normals 1200 / 800,
station_1 absent, station_2 = 400, month JUNIO. -/
theorem C1_porcentaje_normal_witness :
    (0 : ℚ) < normales.station_1 ∧ (0 : ℚ) < normales.station_2 ∧
    ∃ a b,
      completarFila normales
          { year := 2024, station_1 := none, station_2 := some 400, month := some "JUNIO" } =
        Except.ok { year := 2024, station_1 := some a, station_2 := some b,
                    month := some "JUNIO" } ∧
      a = 600 ∧ b = 400 := by
  refine ⟨by norm_num [normales], by norm_num [normales], ?_⟩
  obtain ⟨a, b, hok, -, hb, ha, -, -⟩ :=
    C1_porcentaje_normal normales
      { year := 2024, station_1 := none, station_2 := some 400, month := some "JUNIO" }
      (by norm_num [normales]) (by norm_num [normales]) (Or.inl (by simp))
  refine ⟨a, b, hok, ?_, hb 400 rfl⟩
  rw [ha rfl 400 rfl]
  norm_num [normales]

theorem estadisticasMes_map_some (x : ℚ) (rest : List ℚ) :
    estadisticasMes ((x :: rest).map some) =
      Except.ok
        { media := (x :: rest).sum / ((x :: rest).length : ℚ)
          maximo := rest.foldl max x
          minimo := rest.foldl min x
          varianza := ((x :: rest).map fun t =>
              (t - (x :: rest).sum / ((x :: rest).length : ℚ)) ^ 2).sum /
            ((x :: rest).length : ℚ) } := by
  have hseq := seqValores_map_some (x :: rest)
  simp only [List.map_cons] at hseq
  simp [estadisticasMes, hseq, okBind, maxLista, minLista]

/-- Claim C2: on a non-empty collection of actual (present) values the
statistics pass succeeds and computes mean = sum / n, max and min over the
collection, the population variance sum((x - mean)^2) / n, the standard
deviation sqrt(variance) and pmp = mean + 1.5 * stddev; consequently
min ≤ mean ≤ max and stddev ≥ 0. -/
theorem C2_estadisticas_mensuales (valores : List (Option ℚ)) (xs : List ℚ)
    (hv : valores = xs.map some) (hne : xs ≠ []) :
    ∃ s : EstadisticasMes,
      estadisticasMes valores = Except.ok s ∧
      s.media = xs.sum / xs.length ∧
      s.maximo ∈ xs ∧ (∀ t ∈ xs, t ≤ s.maximo) ∧
      s.minimo ∈ xs ∧ (∀ t ∈ xs, s.minimo ≤ t) ∧
      s.varianza = (xs.map fun t => (t - s.media) ^ 2).sum / xs.length ∧
      s.minimo ≤ s.media ∧ s.media ≤ s.maximo ∧
      desvStd s = Real.sqrt (s.varianza : ℝ) ∧
      0 ≤ desvStd s ∧
      pmpDe s = (s.media : ℝ) + 1.5 * desvStd s := by
  subst hv
  obtain ⟨x, rest, rfl⟩ : ∃ x rest, xs = x :: rest := by
    cases xs with
    | nil => exact absurd rfl hne
    | cons x rest => exact ⟨x, rest, rfl⟩
  have hok := estadisticasMes_map_some x rest
  have hlpos : (0 : ℚ) < ((x :: rest).length : ℚ) := by
    simp only [List.length_cons]
    positivity
  refine ⟨_, hok, rfl, foldl_max_mem rest x, le_foldl_max rest x, foldl_min_mem rest x,
    foldl_min_le rest x, rfl, ?_, ?_, rfl, Real.sqrt_nonneg _, rfl⟩
  · have hs : (x :: rest).length • rest.foldl min x ≤ (x :: rest).sum :=
      List.card_nsmul_le_sum _ _ (foldl_min_le rest x)
    rw [nsmul_eq_mul] at hs
    rw [le_div_iff₀ hlpos, mul_comm]
    exact hs
  · have hs : (x :: rest).sum ≤ (x :: rest).length • rest.foldl max x :=
      List.sum_le_card_nsmul _ _ (le_foldl_max rest x)
    rw [nsmul_eq_mul] at hs
    rw [div_le_iff₀ hlpos, mul_comm]
    exact hs

/-- Witness for C2 at the spec's concrete scenario: values 10, 20, 30 for
one month. -/
theorem C2_estadisticas_mensuales_witness :
    ∃ s : EstadisticasMes,
      estadisticasMes [some 10, some 20, some 30] = Except.ok s ∧
      s.media = ([10, 20, 30] : List ℚ).sum / ([10, 20, 30] : List ℚ).length ∧
      s.maximo ∈ ([10, 20, 30] : List ℚ) ∧ (∀ t ∈ ([10, 20, 30] : List ℚ), t ≤ s.maximo) ∧
      s.minimo ∈ ([10, 20, 30] : List ℚ) ∧ (∀ t ∈ ([10, 20, 30] : List ℚ), s.minimo ≤ t) ∧
      s.varianza = (([10, 20, 30] : List ℚ).map fun t => (t - s.media) ^ 2).sum /
        ([10, 20, 30] : List ℚ).length ∧
      s.minimo ≤ s.media ∧ s.media ≤ s.maximo ∧
      desvStd s = Real.sqrt (s.varianza : ℝ) ∧
      0 ≤ desvStd s ∧
      pmpDe s = (s.media : ℝ) + 1.5 * desvStd s :=
  C2_estadisticas_mensuales [some 10, some 20, some 30] [10, 20, 30] rfl (by decide)

/-- Claim C8: a month whose collected value list is empty gets the sentinel
0 in all five statistics, as a successful (non-error) result. -/
theorem C8_mes_vacio (rows : List Data) (est : Estacion) (mes : String)
    (h : valoresMes rows est mes = []) :
    estadisticasMes (valoresMes rows est mes) =
        Except.ok { media := 0, maximo := 0, minimo := 0, varianza := 0 } ∧
    desvStd { media := 0, maximo := 0, minimo := 0, varianza := 0 } = 0 ∧
    pmpDe { media := 0, maximo := 0, minimo := 0, varianza := 0 } = 0 := by
  rw [h]
  refine ⟨rfl, ?_, ?_⟩
  · simp [desvStd]
  · simp [pmpDe, desvStd]

/-- Witness for C8: the empty dataset has no contributing year for ENERO. -/
theorem C8_mes_vacio_witness :
    estadisticasMes (valoresMes [] Estacion.station_1 "ENERO") =
        Except.ok { media := 0, maximo := 0, minimo := 0, varianza := 0 } ∧
    desvStd { media := 0, maximo := 0, minimo := 0, varianza := 0 } = 0 ∧
    pmpDe { media := 0, maximo := 0, minimo := 0, varianza := 0 } = 0 :=
  C8_mes_vacio [] Estacion.station_1 "ENERO" rfl

theorem completarFila_pass (n : Normales) (row : Data)
    (h : (row.station_1 = none ∧ row.station_2 = none) ∨
         (row.station_1 ≠ none ∧ row.station_2 ≠ none)) :
    completarFila n row = Except.ok row := by
  obtain ⟨y, s1, s2, m⟩ := row
  simp only at h
  rcases h with ⟨e1, e2⟩ | ⟨e1, e2⟩
  · subst e1; subst e2
    rfl
  · obtain ⟨v, rfl⟩ := Option.ne_none_iff_exists'.mp e1
    obtain ⟨w, rfl⟩ := Option.ne_none_iff_exists'.mp e2
    rfl

theorem completarFila_shape (n : Normales) (row out : Data)
    (h : completarFila n row = Except.ok out) :
    (out.station_1 = none ∧ out.station_2 = none) ∨
      (out.station_1 ≠ none ∧ out.station_2 ≠ none) := by
  obtain ⟨y, s1, s2, m⟩ := row
  cases s1 with
  | none =>
    cases s2 with
    | none =>
      simp only [completarFila, okBind, Except.ok.injEq] at h
      subst h
      exact Or.inl ⟨rfl, rfl⟩
    | some v =>
      by_cases hz : n.station_2 = 0
      · simp [completarFila, pydiv, hz, okBind, errBind] at h
      · simp only [completarFila, pydiv, hz, if_false, okBind, Except.ok.injEq] at h
        subst h
        exact Or.inr ⟨by simp, by simp⟩
  | some v =>
    cases s2 with
    | none =>
      by_cases hz : n.station_1 = 0
      · simp [completarFila, pydiv, hz, okBind, errBind] at h
      · simp only [completarFila, pydiv, hz, if_false, okBind, Except.ok.injEq] at h
        subst h
        exact Or.inr ⟨by simp, by simp⟩
    | some w =>
      simp only [completarFila, okBind, Except.ok.injEq] at h
      subst h
      exact Or.inr ⟨by simp, by simp⟩

theorem completar_ok_fix (n : Normales) :
    ∀ rows out : List Data,
      completar_porcentaje_normal rows n = Except.ok out →
      completar_porcentaje_normal out n = Except.ok out := by
  intro rows
  induction rows with
  | nil =>
    intro out h
    simp only [completar_porcentaje_normal, Except.ok.injEq] at h
    subst h
    rfl
  | cons r rs ih =>
    intro out h
    simp only [completar_porcentaje_normal] at h
    cases hr : completarFila n r with
    | error e =>
      rw [hr, errBind] at h
      cases h
    | ok o =>
      rw [hr, okBind] at h
      cases hs : completar_porcentaje_normal rs n with
      | error e =>
        rw [hs, errBind] at h
        cases h
      | ok os =>
        rw [hs, okBind] at h
        simp only [Except.ok.injEq] at h
        subst h
        have ho : completarFila n o = Except.ok o :=
          completarFila_pass n o (completarFila_shape n r o hr)
        have hos : completar_porcentaje_normal os n = Except.ok os := ih os hs
        simp only [completar_porcentaje_normal, ho, okBind, hos]

/-- Claim C7: the imputer is idempotent: a record with both readings
present, or both absent, passes through unchanged, and running the whole
pass twice equals running it once. -/
theorem C7_idempotente (n : Normales) :
    (∀ row : Data,
        (row.station_1 ≠ none ∧ row.station_2 ≠ none) ∨
          (row.station_1 = none ∧ row.station_2 = none) →
        completarFila n row = Except.ok row) ∧
    ∀ rows : List Data,
      (completar_porcentaje_normal rows n).bind
          (fun out => completar_porcentaje_normal out n) =
        completar_porcentaje_normal rows n := by
  constructor
  · intro row h
    exact completarFila_pass n row h.symm
  · intro rows
    cases h : completar_porcentaje_normal rows n with
    | error e => rfl
    | ok out => exact completar_ok_fix n rows out h

/-- Witness for C7: a both-present record passes through, and running the
pass twice on a two-record list (one both-present, one both-absent) equals
running it once. -/
theorem C7_idempotente_witness :
    completarFila normales
        { year := 2000, station_1 := some 5, station_2 := some 6, month := some "ENERO" } =
      Except.ok
        { year := 2000, station_1 := some 5, station_2 := some 6, month := some "ENERO" } ∧
    (completar_porcentaje_normal
          [{ year := 2000, station_1 := some 5, station_2 := some 6, month := some "ENERO" },
           { year := 2001, station_1 := none, station_2 := none, month := some "FEBRERO" }]
          normales).bind
        (fun out => completar_porcentaje_normal out normales) =
      completar_porcentaje_normal
        [{ year := 2000, station_1 := some 5, station_2 := some 6, month := some "ENERO" },
         { year := 2001, station_1 := none, station_2 := none, month := some "FEBRERO" }]
        normales :=
  ⟨(C7_idempotente normales).1 _ (Or.inl (by simp)),
   (C7_idempotente normales).2 _⟩

/-- Claim C3 counterexample: with a negative normal for station_2 the
imputation does not fail and the record is modified — the pass returns ok
and fills station_1 with the negative estimate (1200 / -800) * 400 = -600,
contradicting "fails with a ConfigurationError … and no record is
modified". -/
theorem C3_counterexample :
    completar_porcentaje_normal
        [{ year := 2000, station_1 := none, station_2 := some 400, month := some "JUNIO" }]
        { station_1 := 1200, station_2 := -800 } =
      Except.ok
        [{ year := 2000, station_1 := some (-600), station_2 := some 400,
           month := some "JUNIO" }] := by
  simp [completar_porcentaje_normal, completarFila, pydiv, okBind]
  norm_num

/-- Claim C3 amended: the imputer validates nothing and raises no
ConfigurationError.  For a record with station_1 absent and station_2
present, imputation proceeds and modifies the record whenever the station_2
normal is nonzero — negative normals included; a zero station_2 normal
makes the pass fail with a ZeroDivisionError at the division itself. -/
theorem C3_sin_validacion (n : Normales) (y : Int) (m : Option String) (v : ℚ) :
    (n.station_2 ≠ 0 →
      completarFila n { year := y, station_1 := none, station_2 := some v, month := m } =
        Except.ok { year := y, station_1 := some (n.station_1 / n.station_2 * v),
                    station_2 := some v, month := m }) ∧
    (n.station_2 = 0 →
      completarFila n { year := y, station_1 := none, station_2 := some v, month := m } =
        Except.error PyErr.zeroDivision) := by
  constructor
  · intro h
    simp [completarFila, pydiv, h, okBind]
  · intro h
    simp [completarFila, pydiv, h, okBind, errBind]

/-- Witness for C3's amended claim, at a negative and at a zero normal. -/
theorem C3_sin_validacion_witness :
    completarFila { station_1 := 1200, station_2 := -800 }
        { year := 2000, station_1 := none, station_2 := some 400, month := some "JUNIO" } =
      Except.ok
        { year := 2000,
          station_1 := some ((1200 : ℚ) / (-800 : ℚ) * 400),
          station_2 := some 400, month := some "JUNIO" } ∧
    completarFila { station_1 := 1200, station_2 := 0 }
        { year := 2000, station_1 := none, station_2 := some 400, month := some "JUNIO" } =
      Except.error PyErr.zeroDivision :=
  ⟨(C3_sin_validacion { station_1 := 1200, station_2 := -800 } 2000 (some "JUNIO") 400).1
      (by norm_num),
   (C3_sin_validacion { station_1 := 1200, station_2 := 0 } 2000 (some "JUNIO") 400).2 rfl⟩

/-- Claim C5 evaluated at the failing input: a record with both readings
absent passes through imputation unchanged, its absent selected-station
reading is NOT excluded from the collected values — None differs from the
"" marker, so [none] is collected — and the statistics computation on that
collection fails with a TypeError, exactly where Python's sum(valores)
raises. -/
theorem C5_ausente_no_excluido :
    completar_porcentaje_normal
        [{ year := 2000, station_1 := none, station_2 := none, month := some "ENERO" }]
        normales =
      Except.ok
        [{ year := 2000, station_1 := none, station_2 := none, month := some "ENERO" }] ∧
    valoresMes [{ year := 2000, station_1 := none, station_2 := none, month := some "ENERO" }]
        Estacion.station_1 "ENERO" = [none] ∧
    estadisticasMes [none] = Except.error PyErr.typeError := by
  refine ⟨rfl, ?_, rfl⟩
  decide

/-- Claim C6 evaluated at the failing input: operator selection "0", which
resolves to no menu entry, silently yields station_2 via Python's negative
indexing (estaciones[-1]) with no notice; parse failures and large indices
do fall back to station_1 with the notice. -/
theorem C6_seleccion_cero :
    elegirEstacion (some 0) = ("station_2", false) ∧
    elegirEstacion (some 3) = ("station_1", true) ∧
    elegirEstacion none = ("station_1", true) := by
  refine ⟨?_, ?_, rfl⟩ <;> decide

theorem crearDataAux_get? (filas : List Fila) :
    ∀ (month : Option String) (i : ℕ) (f : Fila), filas.get? i = some f →
      (crearDataAux month filas).get? i =
        some { year := f.year, station_1 := f.station_1, station_2 := f.station_2,
               month := ultimoMesDesde month (filas.take (i + 1)) } := by
  induction filas with
  | nil =>
    intro month i f h
    cases h
  | cons g gs ih =>
    intro month i f h
    cases i with
    | zero =>
      simp only [List.get?] at h
      cases Option.some.inj h
      cases hg : g.month_cell <;>
        simp [crearDataAux, ultimoMesDesde, List.take, List.foldl, hg]
    | succ i =>
      simp only [List.get?] at h
      have hrec := ih (match g.month_cell with | some c => some c | none => month) i f h
      cases hg : g.month_cell <;>
        simpa [crearDataAux, ultimoMesDesde, List.take, List.foldl, hg] using hrec

/-- Claim C4 counterexample: a row whose month cell is absent before any
month has been seen is not rejected — crear_data is total, raises no
MalformedInput condition, and silently constructs a record whose month is
unresolved (none). -/
theorem C4_counterexample :
    crear_data
        [{ year := 2000, station_1 := some 1, station_2 := some 2, month_cell := none }] =
      [{ year := 2000, station_1 := some 1, station_2 := some 2, month := none }] := rfl

/-- Claim C4 amended: every constructed record copies its row's year and
readings and carries as month the most recently seen non-absent month cell
among the rows up to and including its own (forward propagation); when no
month cell has been seen yet that value is none, i.e. the record is
constructed with an unresolved month instead of being rejected. -/
theorem C4_propagacion (filas : List Fila) (i : ℕ) (f : Fila)
    (hf : filas.get? i = some f) :
    (crear_data filas).get? i =
      some { year := f.year, station_1 := f.station_1, station_2 := f.station_2,
             month := ultimoMes (filas.take (i + 1)) } :=
  crearDataAux_get? filas none i f hf

/-- Witness for C4's amended claim: the second row lacks a month cell and
inherits MARZO from the first row. -/
theorem C4_propagacion_witness :
    (crear_data
        [{ year := 2000, station_1 := some 1, station_2 := some 2, month_cell := some "MARZO" },
         { year := 2001, station_1 := some 3, station_2 := some 4, month_cell := none }]).get? 1 =
      some { year := 2001, station_1 := some 3, station_2 := some 4,
             month := some "MARZO" } :=
  (C4_propagacion
      [{ year := 2000, station_1 := some 1, station_2 := some 2, month_cell := some "MARZO" },
       { year := 2001, station_1 := some 3, station_2 := some 4, month_cell := none }]
      1 { year := 2001, station_1 := some 3, station_2 := some 4, month_cell := none }
      rfl).trans (by decide)

theorem sumaFold (rows : List Data) (est : Estacion) (ps : String → ℚ) :
    ∀ (ms : List String) (a : ℚ),
      (∀ mes ∈ ms, promedioMes rows est mes = Except.ok (ps mes)) →
      ms.foldl
          (fun acc mes => do
            let a ← acc
            let p ← promedioMes rows est mes
            Except.ok (a + p))
          (Except.ok a) =
        Except.ok (a + (ms.map ps).sum) := by
  intro ms
  induction ms with
  | nil =>
    intro a h
    simp
  | cons mes ms ih =>
    intro a h
    have hm : promedioMes rows est mes = Except.ok (ps mes) :=
      h mes (List.mem_cons_self _ _)
    simp only [List.foldl_cons, okBind, hm, List.map_cons, List.sum_cons]
    rw [ih (a + ps mes) (fun x hx => h x (List.mem_cons_of_mem _ hx))]
    rw [add_assoc]

/-- Claim C9: the annual total is exactly the sum of the twelve per-month
means, zero sentinels included, whenever the statistics pass produced a
mean for every canonical month. -/
theorem C9_suma_promedios (rows : List Data) (est : Estacion) (ps : String → ℚ)
    (h : ∀ mes ∈ orden_meses, promedioMes rows est mes = Except.ok (ps mes)) :
    sumaPromediosAnual rows est = Except.ok ((orden_meses.map ps).sum) := by
  have hfold := sumaFold rows est ps orden_meses 0 h
  rw [zero_add] at hfold
  exact hfold

/-- Witness for C9: the empty dataset gives the sentinel mean 0 for every
month and the annual total is the sum of those twelve zeros. -/
theorem C9_suma_promedios_witness :
    sumaPromediosAnual [] Estacion.station_1 =
      Except.ok ((orden_meses.map fun _ => (0 : ℚ)).sum) :=
  C9_suma_promedios [] Estacion.station_1 (fun _ => 0) (fun _ _ => rfl)

theorem find_append_single (p : Data → Bool) (l : List Data) (d : Data) :
    (l ++ [d]).find? p =
      match l.find? p with
      | some x => some x
      | none => if p d then some d else none := by
  induction l with
  | nil =>
    simp only [List.nil_append, List.find?]
    cases hp : p d <;> simp [List.find?, hp]
  | cons a l ih =>
    cases hp : p a <;> simp [List.find?, hp, ih]

theorem celda_eq_find (est : Estacion) (y : Int) (m : Option String) :
    ∀ (rows : List Data) (init : Celda),
      rows.foldl (fun acc d =>
          if d.year = y ∧ d.month = m then Celda.valor (d.lectura est) else acc) init =
        match rows.reverse.find? (fun d => decide (d.year = y ∧ d.month = m)) with
        | some d => Celda.valor (d.lectura est)
        | none => init := by
  intro rows
  induction rows with
  | nil =>
    intro init
    rfl
  | cons r rs ih =>
    intro init
    simp only [List.foldl_cons, List.reverse_cons]
    rw [ih, find_append_single]
    cases hfind : rs.reverse.find? (fun d => decide (d.year = y ∧ d.month = m)) with
    | some d => rfl
    | none =>
      by_cases hc : r.year = y ∧ r.month = m
      · simp [hc]
      · simp [hc]

/-- Claim C10: the year-by-month table cell holds the value of the LAST
record in row order with that year and month (later records overwrite
earlier ones; an unwritten cell stays the "" marker), and consequently a
month's collected values contain at most one entry per distinct year. -/
theorem C10_ultima_escritura (rows : List Data) (est : Estacion) (y : Int) (m : String) :
    celda rows est y (some m) =
      (match rows.reverse.find? (fun d => decide (d.year = y ∧ d.month = some m)) with
        | some d => Celda.valor (d.lectura est)
        | none => Celda.vacia) ∧
    (valoresMes rows est m).length ≤ (aniosDe rows).length := by
  refine ⟨celda_eq_find est y (some m) rows Celda.vacia, ?_⟩
  exact List.length_filterMap_le _ _

end Hidro
